import Mathlib

/-!
Verification of the Hackademia multi-agent CI/CD pipeline against its
natural-language specification.

The Python sources are shallowly embedded: strings are lists of
characters (`Str`), dictionaries become structures, the LLM
collaborators become oracle function parameters, and each function under
study is translated statement by statement from its source file.
-/

/-- Strings of the embedded program: Python `str` values as lists of characters. -/
abbrev Str := List Char

/-- The characters Python `str.strip` and the regex class `\s` treat as whitespace
(ASCII portion, which is all the program ever meets). -/
def isPySpace (c : Char) : Bool :=
  c = ' ' || c = '\t' || c = '\n' || c = '\r' || c = '\x0b' || c = '\x0c'

/-- Python `s.strip()`: remove leading and trailing whitespace. -/
def pyStrip (s : Str) : Str :=
  ((s.dropWhile isPySpace).reverse.dropWhile isPySpace).reverse

/-- Python `s.split(sep)` for a one-character separator: all pieces, empties kept. -/
def splitOnChar (sep : Char) : Str → List Str
  | [] => [[]]
  | c :: rest =>
    if c = sep then
      [] :: splitOnChar sep rest
    else
      match splitOnChar sep rest with
      | [] => [[c]]
      | h :: t => (c :: h) :: t

/-- Python `s.split('\n')`. -/
def splitLines (s : Str) : List Str := splitOnChar '\n' s

/-- Python `pat in s`: substring occurrence (the empty pattern occurs in every string). -/
def occursIn (pat : Str) : Str → Bool
  | [] => pat.isEmpty
  | c :: rest => pat.isPrefixOf (c :: rest) || occursIn pat rest

/-! ## Diff parsing (`GitHubClient._parse_patch`, src/utils/github_client.py) -/

/-- Parse a maximal run of decimal digits (`\d+`); `none` when the first
character is not a digit.  Returns the value and the rest of the input. -/
def parseDigits1 (s : Str) : Option (Nat × Str) :=
  let digits := s.takeWhile Char.isDigit
  if digits.isEmpty then none
  else some (digits.foldl (fun n c => n * 10 + (c.toNat - '0'.toNat)) 0, s.dropWhile Char.isDigit)

/-- The optional `(?:,\d+)?` group of the hunk-header regex: consume `,digits`
when present.  (Backtracking never helps here: when the group is declined the
next characters must match `\s*\+` or `\s*@@`, which a leading `,` cannot.) -/
def skipCommaDigits (s : Str) : Str :=
  match s with
  | ',' :: c :: rest => if c.isDigit then (c :: rest).dropWhile Char.isDigit else s
  | _ => s

/-- Try the regex `@@\s*-(\d+)(?:,\d+)?\s*\+(\d+)(?:,\d+)?\s*@@` at the start of `s`. -/
def matchHunkAt (s : Str) : Option (Nat × Nat) :=
  match s with
  | '@' :: '@' :: s1 =>
    let s2 := s1.dropWhile isPySpace
    match s2 with
    | '-' :: s3 =>
      match parseDigits1 s3 with
      | none => none
      | some (a, s4) =>
        let s5 := (skipCommaDigits s4).dropWhile isPySpace
        match s5 with
        | '+' :: s6 =>
          match parseDigits1 s6 with
          | none => none
          | some (c, s7) =>
            let s8 := (skipCommaDigits s7).dropWhile isPySpace
            match s8 with
            | '@' :: '@' :: _ => some (a, c)
            | _ => none
        | _ => none
    | _ => none
  | _ => none

/-- Python `re.search` of the hunk-header regex over a line: first position
(left to right) at which the pattern matches. -/
def searchHunk : Str → Option (Nat × Nat)
  | [] => none
  | c :: rest =>
    match matchHunkAt (c :: rest) with
    | some r => some r
    | none => searchHunk rest

/-- The accumulator of `_parse_patch`: current old/new line counters and the
three projections (added, removed, context), each in emission order. -/
structure ParseState where
  old_line_num : Nat
  new_line_num : Nat
  added_lines : List (Nat × Str)
  removed_lines : List (Nat × Str)
  context_lines : List (Nat × Nat × Str)
deriving DecidableEq, Repr

/-- Starting state of `_parse_patch`: both counters 0, all projections empty. -/
def initParseState : ParseState :=
  { old_line_num := 0, new_line_num := 0
    added_lines := [], removed_lines := [], context_lines := [] }

/-- One iteration of the `for line in lines` loop of `_parse_patch`. -/
def parseStep (st : ParseState) (line : Str) : ParseState :=
  if ('@' :: '@' :: []).isPrefixOf line then
    match searchHunk line with
    | some (a, c) => { st with old_line_num := a, new_line_num := c }
    | none => st
  else if ('+' :: []).isPrefixOf line && !(('+' :: '+' :: '+' :: []).isPrefixOf line) then
    { st with
      added_lines := st.added_lines ++ [(st.new_line_num, line.drop 1)]
      new_line_num := st.new_line_num + 1 }
  else if ('-' :: []).isPrefixOf line && !(('-' :: '-' :: '-' :: []).isPrefixOf line) then
    { st with
      removed_lines := st.removed_lines ++ [(st.old_line_num, line.drop 1)]
      old_line_num := st.old_line_num + 1 }
  else
    let content := if (' ' :: []).isPrefixOf line then line.drop 1 else line
    { st with
      context_lines := st.context_lines ++ [(st.old_line_num, st.new_line_num, content)]
      old_line_num := st.old_line_num + 1
      new_line_num := st.new_line_num + 1 }

/-- `GitHubClient._parse_patch`: split the patch on newlines and classify each
line, threading the old/new line counters. -/
def parse_patch (patch : Str) : ParseState :=
  (splitLines patch).foldl parseStep initParseState

/-! ## Results aggregation (`ResultsAggregator.aggregate_pipeline_results`,
src/utils/results_webhook.py) -/

/-- The `PipelineStatus` enum of the results-webhook module
(`PARTIAL` is rendered `partialStatus`). -/
inductive PipelineStatusE where
  | success
  | failed
  | partialStatus
deriving DecidableEq, Repr

/-- The `stages_success` list built by `aggregate_pipeline_results` from the
four per-stage success flags (build, analyze, fix, test). -/
def stages_success (b a f t : Bool) : List Bool := [b, a, f, t]

/-- The overall-status computation of `aggregate_pipeline_results`:
`all` ⇒ success, else `any` ⇒ partial, else failed. -/
def aggregate_pipeline_status (b a f t : Bool) : PipelineStatusE :=
  if (stages_success b a f t).all id then .success
  else if (stages_success b a f t).any id then .partialStatus
  else .failed

/-- `success_rate = sum(stages_success) / len(stages_success) * 100`,
with the Python float arithmetic carried out exactly in `ℚ`. -/
def success_rate (b a f t : Bool) : ℚ :=
  (((stages_success b a f t).countP id : ℚ) / ((stages_success b a f t).length : ℚ)) * 100

/-! ## Analyze agent (`AnalyzeAgent`, src/agents/analyze_agent.py) -/

/-- One entry of the `changed_files` list handed to the Analyze agent
(the fields `_filter_code_files` reads). -/
structure AFile where
  filename : Str
  file_extension : Str
  is_binary : Bool
  status : Str
deriving DecidableEq, Repr

/-- The `code_extensions` set of `AnalyzeAgent._filter_code_files`. -/
def code_extensions : List Str :=
  [".py".data, ".js".data, ".ts".data, ".java".data, ".cpp".data,
   ".c".data, ".go".data, ".rs".data, ".php".data, ".rb".data]

/-- The extension normalisation of `_filter_code_files`:
a missing leading dot is prepended. -/
def normalize_extension (ext : Str) : Str :=
  if ('.' :: []).isPrefixOf ext then ext else '.' :: ext

/-- `AnalyzeAgent._filter_code_files`: keep exactly the non-binary files whose
normalised extension is in `code_extensions` and whose status is
added or modified. -/
def filter_code_files (changed_files : List AFile) : List AFile :=
  changed_files.filter (fun f =>
    code_extensions.contains (normalize_extension f.file_extension)
      && !f.is_binary
      && (f.status == "added".data || f.status == "modified".data))

/-- An issue dictionary as returned by the per-file LLM analysis; `filename`
and `file` are the keys `analyze_pr_diff` overwrites, `details` stands for the
remaining payload. -/
structure Issue where
  filename : Str
  file : Str
  details : Str
deriving DecidableEq, Repr

/-- The dictionary returned by `AnalyzeAgent._analyze_single_file`. -/
structure FileAnalysis where
  vulnerabilities : List Issue
  security_issues : List Issue
  quality_issues : List Issue
  recommendations : List Str
deriving Repr

/-- The `AnalysisResult` dataclass of the Analyze agent. -/
structure AnalysisResult where
  success : Bool
  vulnerabilities : List Issue
  security_issues : List Issue
  quality_issues : List Issue
  recommendations : List Str
  files_analyzed : Nat
  total_issues : Nat
deriving Repr

/-- The filename tagging `analyze_pr_diff` performs on every issue of a file
analysis before merging (`issue['filename'] = filename; issue['file'] = filename`). -/
def tag_issue (fn : Str) (i : Issue) : Issue := { i with filename := fn, file := fn }

/-- One iteration of the per-file loop of `analyze_pr_diff`: tag every issue
of the file analysis with the file's name and extend the accumulated lists. -/
def analyze_step (oracle : AFile → FileAnalysis)
    (acc : List Issue × List Issue × List Issue × List Str) (f : AFile) :
    List Issue × List Issue × List Issue × List Str :=
  let fa := oracle f
  (acc.1 ++ fa.vulnerabilities.map (tag_issue f.filename),
   acc.2.1 ++ fa.security_issues.map (tag_issue f.filename),
   acc.2.2.1 ++ fa.quality_issues.map (tag_issue f.filename),
   acc.2.2.2 ++ fa.recommendations)

/-- `AnalyzeAgent.analyze_pr_diff` (non-exception path): filter the changed
files, then analyse each in turn, tagging every returned issue with the
file's name.  The per-file LLM call `_analyze_single_file` is the oracle. -/
def analyze_pr_diff (oracle : AFile → FileAnalysis) (changed_files : List AFile) :
    AnalysisResult :=
  let code_files := filter_code_files changed_files
  if code_files.isEmpty then
    { success := true, vulnerabilities := [], security_issues := [], quality_issues := []
      recommendations := ["No code files found to analyze".data]
      files_analyzed := code_files.length, total_issues := 0 }
  else
    let r := code_files.foldl (analyze_step oracle) ([], [], [], [])
    { success := true
      vulnerabilities := r.1, security_issues := r.2.1, quality_issues := r.2.2.1
      recommendations := r.2.2.2
      files_analyzed := code_files.length
      total_issues := r.1.length + r.2.1.length + r.2.2.1.length }

/-! ## Test agent Phase 1 (`TestAgent._discover_changed_functions` and
`TestAgent._extract_functions_from_file`, src/agents/test_agent.py) -/

/-- A `FunctionDef` node as produced by the runtime parser (`ast.walk`):
name and inclusive line span (`lineno`, `end_lineno`). -/
structure PyFunc where
  function_name : Str
  start_line : Nat
  end_line : Nat
deriving DecidableEq, Repr

/-- `_extract_functions_from_file`: keep the function definitions whose
inclusive span `[start_line, end_line]` meets the set of changed lines. -/
def extract_functions_from_file (funcs : List PyFunc) (changed_lines : List Nat) :
    List PyFunc :=
  funcs.filter (fun f =>
    changed_lines.any (fun l => decide (f.start_line ≤ l) && decide (l ≤ f.end_line)))

/-- The changed-line numbers `_discover_changed_functions` keeps for a file:
positive line numbers of the file's `added_lines` that are within
`[1, file_line_count]`. -/
def valid_changed_lines (added_line_numbers : List Nat) (file_line_count : Nat) :
    List Nat :=
  (added_line_numbers.filter (fun l => decide (0 < l))).filter
    (fun l => decide (1 ≤ l) && decide (l ≤ file_line_count))

/-- The per-file core of `_discover_changed_functions`: collect positive
changed-line numbers, skip the file when none remain, restrict them to the
file's bounds, skip the file when none remain, else filter the parsed
function definitions by span intersection. -/
def discover_file_functions (added_line_numbers : List Nat) (file_line_count : Nat)
    (funcs : List PyFunc) : List PyFunc :=
  if (added_line_numbers.filter (fun l => decide (0 < l))).isEmpty then []
  else if (valid_changed_lines added_line_numbers file_line_count).isEmpty then []
  else extract_functions_from_file funcs
    (valid_changed_lines added_line_numbers file_line_count)

/-! ## Fix agent (`FixAgent._apply_fix_to_content` and the update decision of
`FixAgent._apply_single_fix`, src/agents/fix_agent.py) -/

/-- Python `s.replace(pat, rep)` for a non-empty pattern: scan left to right,
replacing each non-overlapping occurrence.  The recursion is driven by a fuel
counter (the string shrinks at every step, so any fuel of at least the
string's length yields the scan's value). -/
def pyReplaceGo (pat rep : Str) : Nat → Str → Str
  | 0, s => s
  | fuel + 1, s =>
    if ¬ pat.isEmpty ∧ pat.isPrefixOf s then
      rep ++ pyReplaceGo pat rep fuel (s.drop pat.length)
    else
      match s with
      | [] => []
      | c :: rest => c :: pyReplaceGo pat rep fuel rest

/-- Python `s.replace(pat, rep)` for a non-empty pattern. -/
def pyReplaceNE (pat rep : Str) (s : Str) : Str :=
  pyReplaceGo pat rep s.length s

/-- Python `s.replace('', rep)`: the replacement is inserted before every
character and at the end. -/
def pyReplaceEmptyPat (rep : Str) : Str → Str
  | [] => rep
  | c :: rest => rep ++ c :: pyReplaceEmptyPat rep rest

/-- Python `s.replace(pat, rep)`. -/
def pyReplace (s pat rep : Str) : Str :=
  if pat.isEmpty then pyReplaceEmptyPat rep s else pyReplaceNE pat rep s

/-- The fuzzy `match_score` of `_apply_fix_to_content`: the number of lines of
`old_lines` whose stripped text occurs in the stripped text of the
corresponding line of the window of `lines` starting at `i`. -/
def match_score (lines old_lines : List Str) (i : Nat) : Nat :=
  (old_lines.zip (lines.drop i)).countP
    (fun p => occursIn (pyStrip p.1) (pyStrip p.2))

/-- The `match_score >= len(old_lines) * 0.8` test (the float arithmetic is
exact at these magnitudes, so it is rendered `5·score ≥ 4·n`). -/
def reaches_fuzzy_threshold (score n : Nat) : Bool :=
  decide (5 * score ≥ 4 * n)

/-- The first window index of the fallback loop of `_apply_fix_to_content`
whose match score reaches the threshold, if any. -/
def first_fuzzy_index (lines old_lines : List Str) : Option Nat :=
  (List.range (lines.length + 1 - old_lines.length)).find? (fun i =>
    reaches_fuzzy_threshold (match_score lines old_lines i) old_lines.length)

/-- `FixAgent._apply_fix_to_content`: exact-substring replacement of
`old_code` by `new_code` when `old_code` occurs, else a line-window fuzzy
replacement at the first window reaching the 80% threshold, else the
unchanged content. -/
def apply_fix_to_content (content old_code new_code : Str) : Str :=
  if occursIn old_code content then
    pyReplace content old_code new_code
  else
    let lines := splitLines content
    let old_lines := splitLines old_code
    match first_fuzzy_index lines old_lines with
    | some i =>
      let new_lines := splitLines new_code
      List.intercalate ('\n' :: [])
        (lines.take i ++ new_lines ++ lines.drop (i + old_lines.length))
    | none => content

/-- The observable outcome of one `_apply_single_fix` call after the fix
proposal has been produced: whether `update_file` ran (and hence a commit was
made) and whether the fix was reported applied (`success=True`). -/
structure FixDecision where
  file_updated : Bool
  reported_applied : Bool
  commit_made : Bool
deriving DecidableEq, Repr

/-- The decision logic of `_apply_single_fix` around
`fixed_content = _apply_fix_to_content(...)`: when the content is unchanged,
no `update_file` call is made and the fix is reported not applied; otherwise
`update_file` commits and the fix is reported applied. -/
def apply_single_fix_decision (content old_code new_code : Str) : FixDecision :=
  let fixed := apply_fix_to_content content old_code new_code
  if fixed = content then
    { file_updated := false, reported_applied := false, commit_made := false }
  else
    { file_updated := true, reported_applied := true, commit_made := true }

/-- From the claim's words (C10): the decomposition of `s` at every leftmost,
non-overlapping occurrence of the non-empty pattern `pat` (fuel-driven like
`pyReplaceGo`); replacing every occurrence then means interleaving the
replacement between the pieces. -/
def splitOnAllGo (pat : Str) : Nat → Str → List Str
  | 0, s => [s]
  | fuel + 1, s =>
    if ¬ pat.isEmpty ∧ pat.isPrefixOf s then
      [] :: splitOnAllGo pat fuel (s.drop pat.length)
    else
      match s with
      | [] => [[]]
      | c :: rest =>
        match splitOnAllGo pat fuel rest with
        | [] => [[c]]
        | piece :: t => (c :: piece) :: t

/-- The pieces of `s` between the occurrences of the non-empty pattern `pat`. -/
def splitOnAll (pat : Str) (s : Str) : List Str :=
  splitOnAllGo pat s.length s

/-! ## Orchestrator (`MultiAgentPipeline._execute_pipeline` and the
per-stage runners, src/agents/pipeline_orchestrator.py) -/

/-- The `PipelineStage` enum of the orchestrator. -/
inductive PStage where
  | pending
  | build
  | analyze
  | fix
  | test
  | complete
  | failed
deriving DecidableEq, Repr

/-- The per-stage outcomes the agents hand back to the orchestrator
(the agents themselves are external collaborators). -/
structure StageOutcomes where
  build_success : Bool
  analyze_raises : Bool
  analyze_success : Bool
  analyze_total_issues : Nat
  fix_raises : Bool
  fix_success : Bool
  test_success : Bool
deriving DecidableEq, Repr

/-- The observable execution trace of `_execute_pipeline`: the current
`context.stage`, every value ever assigned to it (in order), the stage bodies
that were entered, the stored `analyze` total-issues count, and the `status`
field of the final `pipeline_complete` event. -/
structure ExecTrace where
  stage : PStage
  stage_history : List PStage
  stages_run : List PStage
  analyze_total : Nat
  complete_status : Str
deriving DecidableEq, Repr

/-- An assignment `context.stage = s`, recorded in the history. -/
def set_stage (tr : ExecTrace) (s : PStage) : ExecTrace :=
  { tr with stage := s, stage_history := tr.stage_history ++ [s] }

/-- `_run_build_stage`: enter the build stage; on `success=False` of the
returned BuildResult, set the stage to FAILED. -/
def run_build_stage (o : StageOutcomes) (tr : ExecTrace) : ExecTrace :=
  let tr := set_stage { tr with stages_run := tr.stages_run ++ [PStage.build] } .build
  if o.build_success then tr else set_stage tr .failed

/-- `_run_analyze_stage`: enter the analyze stage; an exception or a
non-successful AnalysisResult sets the stage to FAILED (an exception stores a
result with `total_issues = 0`). -/
def run_analyze_stage (o : StageOutcomes) (tr : ExecTrace) : ExecTrace :=
  let tr := set_stage { tr with stages_run := tr.stages_run ++ [PStage.analyze] } .analyze
  if o.analyze_raises then
    set_stage { tr with analyze_total := 0 } .failed
  else
    let tr := { tr with analyze_total := o.analyze_total_issues }
    if o.analyze_success then tr else set_stage tr .failed

/-- `_run_fix_stage`: enter the fix stage; only an exception sets the stage to
FAILED (a fix result with `success=False` does not). -/
def run_fix_stage (o : StageOutcomes) (tr : ExecTrace) : ExecTrace :=
  let tr := set_stage { tr with stages_run := tr.stages_run ++ [PStage.fix] } .fix
  if o.fix_raises then set_stage tr .failed else tr

/-- `_run_test_stage_complete`: enter the test stage; every outcome (including
Phase 1 failure) leaves the stage untouched. -/
def run_test_stage (_o : StageOutcomes) (tr : ExecTrace) : ExecTrace :=
  set_stage { tr with stages_run := tr.stages_run ++ [PStage.test] } .test

/-- `_execute_pipeline` (no unhandled exception): build, then analyze unless
FAILED, then fix unless FAILED or no issues, then test unless FAILED, and
finally — unconditionally in the source — `context.stage = COMPLETE` followed
by a `pipeline_complete` event with status `"success"`. -/
def execute_pipeline (o : StageOutcomes) : ExecTrace :=
  let t0 : ExecTrace :=
    { stage := .pending, stage_history := [.pending], stages_run := []
      analyze_total := 0, complete_status := [] }
  let t1 := run_build_stage o t0
  let t2 := if t1.stage ≠ PStage.failed then run_analyze_stage o t1 else t1
  let t3 :=
    if t2.stage ≠ PStage.failed ∧ 0 < t2.analyze_total then run_fix_stage o t2 else t2
  let t4 := if t3.stage ≠ PStage.failed then run_test_stage o t3 else t3
  { t4 with
    stage := .complete
    stage_history := t4.stage_history ++ [.complete]
    complete_status := "success".data }

/-! ## Ingress (`github_webhook`, src/main.py) -/

/-- The AI-commit markers.  The list appears verbatim in
`tests/test_recursion_prevention.py`. -/
def ai_markers : List Str :=
  ["[skip-pipeline]".data, "🤖 AI Fix:".data, "🤖 AI Test:".data,
   "🤖 AI Refactor:".data, "[ai-generated]".data, "[hackademia-ai]".data]

/-- Modelled from the spec: the orchestrator method `is_ai_generated_commit`
called by `github_webhook` is absent from the sources under `src/` (only its
caller in `src/main.py` and the marker list in
`tests/test_recursion_prevention.py` are present).  Per §4.5 it looks up the
head commit's message via `recent_commits` and reports whether any marker of
the fixed set occurs in it; the message lookup is the caller's oracle. -/
def is_ai_generated_commit (commit_message : Str) : Bool :=
  ai_markers.any (fun m => occursIn m commit_message)

/-- A message published on the event fabric: topic (pipeline id) and the
`type` discriminator of the event. -/
structure PublishedMsg where
  topic : Str
  msg_type : Str
deriving DecidableEq, Repr

/-- `MultiAgentPipeline.start_pipeline`: mint the pipeline id
`<repo>_<pr>_<epoch>`, publish `pipeline_start` on it and hand the id back;
raise (here: `none`) when the pull request cannot be accessed.  `src/` holds
the two-argument variant; the spec's richer variant additionally accepts a
trigger descriptor, which does not affect the id, the response or the
`pipeline_start` publication. -/
def start_pipeline (pr_number : Nat) (repo_name : Str) (t : Nat) (pr_found : Bool) :
    Option (Str × List PublishedMsg) :=
  let pipeline_id :=
    repo_name ++ "_".data ++ (toString pr_number).data ++ "_".data ++ (toString t).data
  if pr_found then
    some (pipeline_id, [{ topic := pipeline_id, msg_type := "pipeline_start".data }])
  else none

/-- A decoded pull-request webhook payload: whether the `pull_request` key is
present, the `action`, the PR number, the repository's `full_name` and the
head commit sha when given. -/
structure GHPayload where
  has_pull_request : Bool
  action : Str
  pr_number : Nat
  repo_full_name : Str
  head_sha : Option Str
deriving Repr

/-- An HTTP response: status code and the JSON body as key/value pairs. -/
structure HttpResponse where
  status_code : Nat
  body : List (Str × Str)
deriving DecidableEq, Repr

/-- `github_webhook` of src/main.py: decode the payload, ignore non-PR events
and unhandled actions, suppress a `synchronize` whose head commit is
AI-generated, otherwise start a pipeline and answer with its id.
`commit_message_of` is the `recent_commits` oracle, `pr_found` whether the PR
lookup succeeds, `t` the epoch second at which the pipeline id is minted. -/
def github_webhook (commit_message_of : Str → Str) (pr_found : Bool) (t : Nat)
    (p : GHPayload) : HttpResponse × List PublishedMsg :=
  if !p.has_pull_request then
    ({ status_code := 200
       body := [("message".data, "Not a pull request event, ignoring".data)] }, [])
  else if !(p.action == "opened".data || p.action == "synchronize".data) then
    ({ status_code := 200, body := [("message".data, "Action not processed".data)] }, [])
  else
    let suppressed : Option Str :=
      if p.action == "synchronize".data then
        match p.head_sha with
        | some sha =>
          if is_ai_generated_commit (commit_message_of sha) then some sha else none
        | none => none
      else none
    match suppressed with
    | some sha =>
      ({ status_code := 200
         body := [("message".data, "Skipping pipeline - triggered by AI commit".data),
                  ("pr_number".data, (toString p.pr_number).data),
                  ("repo".data, p.repo_full_name),
                  ("commit_sha".data, sha),
                  ("reason".data, "ai_generated_commit".data)] }, [])
    | none =>
      match start_pipeline p.pr_number p.repo_full_name t pr_found with
      | some (pid, evs) =>
        ({ status_code := 200
           body := [("message".data, "PR processing initiated".data),
                    ("pr_number".data, (toString p.pr_number).data),
                    ("repo".data, p.repo_full_name),
                    ("pipeline_id".data, pid),
                    ("pipeline_status".data, "starting".data)] }, evs)
      | none =>
        ({ status_code := 500
           body := [("detail".data, "Failed to start pipeline".data)] }, [])

/-! ## Concrete inputs used by the witnesses -/

/-- A changed Go file: not binary, status added. -/
def go_file : AFile :=
  { filename := "handler.go".data, file_extension := "go".data
    is_binary := false, status := "added".data }

/-- A changed Python file: not binary, status modified. -/
def py_file : AFile :=
  { filename := "app.py".data, file_extension := "py".data
    is_binary := false, status := "modified".data }

/-- An issue as an LLM might return it, with a filename of its own choosing. -/
def bogus_issue : Issue :=
  { filename := "wrong".data, file := "wrong".data, details := "eval used".data }

/-- A per-file analysis oracle that always reports `bogus_issue`. -/
def const_oracle : AFile → FileAnalysis := fun _ =>
  { vulnerabilities := [bogus_issue], security_issues := [], quality_issues := []
    recommendations := [] }

/-- The function `f` on lines 3–7 of the spec's function-discovery scenario. -/
def uFunc_f : PyFunc := { function_name := "f".data, start_line := 3, end_line := 7 }

/-- The function `g` on lines 10–20 of the spec's function-discovery scenario. -/
def uFunc_g : PyFunc := { function_name := "g".data, start_line := 10, end_line := 20 }

/-- Stage outcomes of a pipeline whose Build stage fails (nothing raises). -/
def build_failed_outcomes : StageOutcomes :=
  { build_success := false, analyze_raises := false, analyze_success := true
    analyze_total_issues := 3, fix_raises := false, fix_success := true
    test_success := true }

/-! ## Helper lemmas -/

/-- `discover_file_functions` always equals the span filter over the validated
changed lines (the two early skips coincide with an empty line set). -/
lemma discover_eq_extract (added : List Nat) (n : Nat) (funcs : List PyFunc) :
    discover_file_functions added n funcs =
      extract_functions_from_file funcs (valid_changed_lines added n) := by
  unfold discover_file_functions
  by_cases hc : (added.filter (fun l => decide (0 < l))).isEmpty
  · have hv : valid_changed_lines added n = [] := by
      simp only [List.isEmpty_iff] at hc
      simp [valid_changed_lines, hc]
    simp [hc, hv, extract_functions_from_file]
  · by_cases hv : (valid_changed_lines added n).isEmpty
    · have hv2 := hv
      simp only [List.isEmpty_iff] at hv2
      simp [hc, hv, hv2, extract_functions_from_file]
    · simp [hc, hv]

/-- Every issue accumulated by the per-file loop of `analyze_pr_diff` is
either from the starting accumulator or tagged with the name of one of the
processed files. -/
lemma analyze_fold_mem (oracle : AFile → FileAnalysis) :
    ∀ (l : List AFile) (acc : List Issue × List Issue × List Issue × List Str) (i : Issue),
      (i ∈ (l.foldl (analyze_step oracle) acc).1 →
        i ∈ acc.1 ∨ ∃ f ∈ l, ∃ j, i = tag_issue f.filename j)
      ∧ (i ∈ (l.foldl (analyze_step oracle) acc).2.1 →
        i ∈ acc.2.1 ∨ ∃ f ∈ l, ∃ j, i = tag_issue f.filename j)
      ∧ (i ∈ (l.foldl (analyze_step oracle) acc).2.2.1 →
        i ∈ acc.2.2.1 ∨ ∃ f ∈ l, ∃ j, i = tag_issue f.filename j) := by
  intro l
  induction l with
  | nil => intro acc i; simp
  | cons f rest ih =>
    intro acc i
    refine ⟨?_, ?_, ?_⟩
    all_goals
      intro hmem
      rw [List.foldl_cons] at hmem
    · rcases (ih (analyze_step oracle acc f) i).1 hmem with h | ⟨g, hg, j, hj⟩
      · simp only [analyze_step, List.mem_append, List.mem_map] at h
        rcases h with h | ⟨j, hj, hji⟩
        · exact Or.inl h
        · exact Or.inr ⟨f, by simp, j, hji.symm⟩
      · exact Or.inr ⟨g, by simp [hg], j, hj⟩
    · rcases (ih (analyze_step oracle acc f) i).2.1 hmem with h | ⟨g, hg, j, hj⟩
      · simp only [analyze_step, List.mem_append, List.mem_map] at h
        rcases h with h | ⟨j, hj, hji⟩
        · exact Or.inl h
        · exact Or.inr ⟨f, by simp, j, hji.symm⟩
      · exact Or.inr ⟨g, by simp [hg], j, hj⟩
    · rcases (ih (analyze_step oracle acc f) i).2.2 hmem with h | ⟨g, hg, j, hj⟩
      · simp only [analyze_step, List.mem_append, List.mem_map] at h
        rcases h with h | ⟨j, hj, hji⟩
        · exact Or.inl h
        · exact Or.inr ⟨f, by simp, j, hji.symm⟩
      · exact Or.inr ⟨g, by simp [hg], j, hj⟩

/-- `splitOnAllGo` never returns an empty piece list. -/
lemma splitOnAllGo_ne_nil (pat : Str) :
    ∀ (fuel : Nat) (s : Str), splitOnAllGo pat fuel s ≠ [] := by
  intro fuel
  induction fuel with
  | zero => intro s; simp [splitOnAllGo]
  | succ n ih =>
    intro s
    unfold splitOnAllGo
    by_cases h : ¬ pat.isEmpty ∧ pat.isPrefixOf s
    · simp [h]
    · simp only [h, if_false]
      cases s with
      | nil => simp
      | cons c rest =>
        simp only
        rcases hsplit : splitOnAllGo pat n rest with _ | ⟨piece, t⟩
        · exact absurd hsplit (ih rest)
        · simp

/-- Unfolding `List.intercalate` over a head piece and a non-empty tail. -/
lemma intercalate_cons_of_ne_nil {sep x : Str} {l : List Str} (h : l ≠ []) :
    List.intercalate sep (x :: l) = x ++ sep ++ List.intercalate sep l := by
  cases l with
  | nil => exact absurd rfl h
  | cons y t => simp [List.intercalate, List.intersperse]

/-- The left-to-right replacement scan equals interleaving the replacement
between the pieces of `splitOnAllGo`, for any fuel. -/
lemma pyReplaceGo_eq_intercalate (pat rep : Str) (hp : pat ≠ []) :
    ∀ (fuel : Nat) (s : Str),
      pyReplaceGo pat rep fuel s = List.intercalate rep (splitOnAllGo pat fuel s) := by
  intro fuel
  induction fuel with
  | zero => intro s; simp [pyReplaceGo, splitOnAllGo, List.intercalate]
  | succ n ih =>
    intro s
    unfold pyReplaceGo splitOnAllGo
    by_cases h : ¬ pat.isEmpty ∧ pat.isPrefixOf s
    · rw [if_pos h, if_pos h,
        intercalate_cons_of_ne_nil (splitOnAllGo_ne_nil pat n (s.drop pat.length)), ih]
      simp
    · rw [if_neg h, if_neg h]
      cases s with
      | nil => simp [List.intercalate]
      | cons c rest =>
        simp only
        rcases hsplit : splitOnAllGo pat n rest with _ | ⟨piece, t⟩
        · exact absurd hsplit (splitOnAllGo_ne_nil pat n rest)
        · rcases t with _ | ⟨piece2, t2⟩
          · rw [ih, hsplit]
            simp [List.intercalate]
          · rw [ih, hsplit,
              intercalate_cons_of_ne_nil (by simp : (piece2 :: t2 : List Str) ≠ []),
              intercalate_cons_of_ne_nil (by simp : (piece2 :: t2 : List Str) ≠ [])]
            simp

/-! ## The claims -/

/-- C1 (code evaluation at the failing input): when the Build stage's
BuildResult has `success = false`, `_execute_pipeline` does skip the Analyze,
Fix and Test stages (only the build stage body runs), but — contrary to the
claim — the pipeline does not terminate in the `failed` stage: the stage is
set to FAILED and then unconditionally overwritten with COMPLETE, and the
`pipeline_complete` event carries status `"success"`. -/
theorem pipeline_completes_after_build_failure :
    execute_pipeline build_failed_outcomes =
      { stage := .complete
        stage_history := [.pending, .build, .failed, .complete]
        stages_run := [.build]
        analyze_total := 0
        complete_status := "success".data } := by decide

/-- C2: a `POST /webhook/github` payload with action `opened`, pull-request
number `pr_number` and repository full name `repo` — with the PR lookup
succeeding — yields a 200 response whose body carries `pr_number`, `repo`, a
`pipeline_id` of the form `repo_pr_t` (with `t` the start epoch second) and
`pipeline_status = "starting"`, and exactly one `pipeline_start` event is
published on that new pipeline id. -/
theorem webhook_opened_spec (cm : Str → Str) (t pr_number : Nat) (repo : Str)
    (sha : Option Str) :
    github_webhook cm true t ⟨true, "opened".data, pr_number, repo, sha⟩ =
      ({ status_code := 200
         body := [("message".data, "PR processing initiated".data),
                  ("pr_number".data, (toString pr_number).data),
                  ("repo".data, repo),
                  ("pipeline_id".data,
                   repo ++ "_".data ++ (toString pr_number).data
                     ++ "_".data ++ (toString t).data),
                  ("pipeline_status".data, "starting".data)] },
       [{ topic := repo ++ "_".data ++ (toString pr_number).data
            ++ "_".data ++ (toString t).data
          msg_type := "pipeline_start".data }]) := rfl

/-- C3: a `POST /webhook/github` payload with action `synchronize` whose head
commit's message contains one of the AI markers yields a 200 response with
reason `ai_generated_commit`, and no pipeline is started (no event is
published). -/
theorem webhook_synchronize_suppressed_spec (cm : Str → Str) (pr_found : Bool)
    (t pr_number : Nat) (repo sha : Str)
    (hmark : is_ai_generated_commit (cm sha) = true) :
    github_webhook cm pr_found t ⟨true, "synchronize".data, pr_number, repo, some sha⟩ =
      ({ status_code := 200
         body := [("message".data, "Skipping pipeline - triggered by AI commit".data),
                  ("pr_number".data, (toString pr_number).data),
                  ("repo".data, repo),
                  ("commit_sha".data, sha),
                  ("reason".data, "ai_generated_commit".data)] },
       []) := by
  simp [github_webhook, hmark]

/-- Witness for C3's theorem at the spec's concrete suppression scenario:
head-commit message `🤖 AI Fix: X [skip-pipeline]`, PR 7 of repository `o/r`. -/
theorem webhook_synchronize_suppressed_witness :
    is_ai_generated_commit (("🤖 AI Fix: X [skip-pipeline]").data) = true
    ∧ github_webhook (fun _ => ("🤖 AI Fix: X [skip-pipeline]").data) true 5
        ⟨true, "synchronize".data, 7, "o/r".data, some ("abc".data)⟩ =
      ({ status_code := 200
         body := [("message".data, "Skipping pipeline - triggered by AI commit".data),
                  ("pr_number".data, (toString 7).data),
                  ("repo".data, "o/r".data),
                  ("commit_sha".data, "abc".data),
                  ("reason".data, "ai_generated_commit".data)] },
       []) :=
  ⟨by decide,
   webhook_synchronize_suppressed_spec (fun _ => ("🤖 AI Fix: X [skip-pipeline]").data)
     true 5 7 "o/r".data "abc".data (by decide)⟩

/-- C4: the diff parser returns the claimed projections on the spec's example
patch, and in general each hunk header the regex recognises as `-a … +c` resets
the counters to `(a, c)`, each `+`-line (not `+++`) is recorded as an added
line at the current new counter, each `-`-line (not `---`) as a removed line at
the current old counter, and every other line as a context line advancing both
counters. -/
theorem parse_patch_spec :
    (parse_patch ("@@ -10,2 +10,3 @@\n ctx\n-old\n+new1\n+new2").data =
      { old_line_num := 12, new_line_num := 13
        added_lines := [(11, "new1".data), (12, "new2".data)]
        removed_lines := [(11, "old".data)]
        context_lines := [(10, 10, "ctx".data)] })
    ∧ (∀ (st : ParseState) (line : Str) (a c : Nat),
        ('@' :: '@' :: []).isPrefixOf line = true →
        searchHunk line = some (a, c) →
        parseStep st line = { st with old_line_num := a, new_line_num := c })
    ∧ (∀ (st : ParseState) (line : Str),
        ('+' :: []).isPrefixOf line = true →
        ('+' :: '+' :: '+' :: []).isPrefixOf line = false →
        parseStep st line =
          { st with
            added_lines := st.added_lines ++ [(st.new_line_num, line.drop 1)]
            new_line_num := st.new_line_num + 1 })
    ∧ (∀ (st : ParseState) (line : Str),
        ('-' :: []).isPrefixOf line = true →
        ('-' :: '-' :: '-' :: []).isPrefixOf line = false →
        parseStep st line =
          { st with
            removed_lines := st.removed_lines ++ [(st.old_line_num, line.drop 1)]
            old_line_num := st.old_line_num + 1 })
    ∧ (∀ (st : ParseState) (line : Str),
        ('@' :: '@' :: []).isPrefixOf line = false →
        (('+' :: []).isPrefixOf line && !(('+' :: '+' :: '+' :: []).isPrefixOf line)) = false →
        (('-' :: []).isPrefixOf line && !(('-' :: '-' :: '-' :: []).isPrefixOf line)) = false →
        parseStep st line =
          { st with
            context_lines := st.context_lines ++
              [(st.old_line_num, st.new_line_num,
                if (' ' :: []).isPrefixOf line then line.drop 1 else line)]
            old_line_num := st.old_line_num + 1
            new_line_num := st.new_line_num + 1 }) := by
  refine ⟨by decide, ?_, ?_, ?_, ?_⟩
  · intro st line a c h1 h2
    simp [parseStep, h1, h2]
  · intro st line h1 h2
    cases line with
    | nil => simp [List.isPrefixOf] at h1
    | cons c rest =>
      have hc : '+' = c := by
        simpa [List.isPrefixOf] using h1
      subst hc
      simp [List.isPrefixOf] at h2
      simp [parseStep, List.isPrefixOf, h2]
  · intro st line h1 h2
    cases line with
    | nil => simp [List.isPrefixOf] at h1
    | cons c rest =>
      have hc : '-' = c := by
        simpa [List.isPrefixOf] using h1
      subst hc
      simp [List.isPrefixOf] at h2
      simp [parseStep, List.isPrefixOf, h2]
  · intro st line h1 h2 h3
    simp [parseStep, h1, h2, h3]

/-- Witness for C4's theorem: each line class evaluated at a concrete line. -/
theorem parse_patch_spec_witness :
    (('@' :: '@' :: []).isPrefixOf ("@@ -3 +7 @@".data) = true
      ∧ searchHunk ("@@ -3 +7 @@".data) = some (3, 7)
      ∧ parseStep initParseState ("@@ -3 +7 @@".data) =
          { initParseState with old_line_num := 3, new_line_num := 7 })
    ∧ parseStep initParseState ("+x".data) =
        { initParseState with
          added_lines := initParseState.added_lines
            ++ [(initParseState.new_line_num, ("+x".data).drop 1)]
          new_line_num := initParseState.new_line_num + 1 }
    ∧ parseStep initParseState ("-y".data) =
        { initParseState with
          removed_lines := initParseState.removed_lines
            ++ [(initParseState.old_line_num, ("-y".data).drop 1)]
          old_line_num := initParseState.old_line_num + 1 }
    ∧ parseStep initParseState ("ctx".data) =
        { initParseState with
          context_lines := initParseState.context_lines ++
            [(initParseState.old_line_num, initParseState.new_line_num,
              if (' ' :: []).isPrefixOf ("ctx".data) then ("ctx".data).drop 1 else "ctx".data)]
          old_line_num := initParseState.old_line_num + 1
          new_line_num := initParseState.new_line_num + 1 } :=
  ⟨⟨by decide, by decide,
    parse_patch_spec.2.1 initParseState ("@@ -3 +7 @@".data) 3 7 (by decide) (by decide)⟩,
   parse_patch_spec.2.2.1 initParseState ("+x".data) (by decide) (by decide),
   parse_patch_spec.2.2.2.1 initParseState ("-y".data) (by decide) (by decide),
   parse_patch_spec.2.2.2.2 initParseState ("ctx".data) (by decide) (by decide) (by decide)⟩

/-- C5: the aggregated `pipeline_status` is `success` iff all four stage
success flags hold, `failed` iff none does, and `partial` otherwise, and
`success_rate` is the number of successful stages divided by 4, times 100. -/
theorem aggregate_results_spec :
    ∀ b a f t : Bool,
      (aggregate_pipeline_status b a f t = .success ↔
        (b = true ∧ a = true ∧ f = true ∧ t = true))
      ∧ (aggregate_pipeline_status b a f t = .failed ↔
        (b = false ∧ a = false ∧ f = false ∧ t = false))
      ∧ (aggregate_pipeline_status b a f t = .partialStatus ↔
        (¬(b = true ∧ a = true ∧ f = true ∧ t = true)
          ∧ ¬(b = false ∧ a = false ∧ f = false ∧ t = false)))
      ∧ success_rate b a f t =
          (((if b then 1 else 0) + (if a then 1 else 0)
            + (if f then 1 else 0) + (if t then 1 else 0) : ℚ) / 4) * 100 := by
  intro b a f t
  cases b <;> cases a <;> cases f <;> cases t <;>
    refine ⟨by decide, by decide, by decide, ?_⟩ <;>
    simp [success_rate, stages_success] <;> norm_num

/-- Witness for C5's theorem at build success, analyze failure, fix and test
success (a `partial` run at rate 75). -/
theorem aggregate_results_spec_witness :
    (aggregate_pipeline_status true false true true = .success ↔
      (true = true ∧ false = true ∧ true = true ∧ true = true))
    ∧ (aggregate_pipeline_status true false true true = .failed ↔
      (true = false ∧ false = false ∧ true = false ∧ true = false))
    ∧ (aggregate_pipeline_status true false true true = .partialStatus ↔
      (¬(true = true ∧ false = true ∧ true = true ∧ true = true)
        ∧ ¬(true = false ∧ false = false ∧ true = false ∧ true = false)))
    ∧ success_rate true false true true =
        (((if true then 1 else 0) + (if false then 1 else 0)
          + (if true then 1 else 0) + (if true then 1 else 0) : ℚ) / 4) * 100 :=
  aggregate_results_spec true false true true

/-- C6 counterexample: a non-binary added `.go` file is outside the claim's
six-extension set, yet `_filter_code_files` selects it for analysis. -/
theorem filter_code_files_includes_go :
    filter_code_files [go_file] = [go_file]
      ∧ normalize_extension go_file.file_extension ∉
          [".py".data, ".js".data, ".ts".data, ".java".data, ".cpp".data, ".c".data] := by
  refine ⟨by decide, by decide⟩

/-- C6 (amended): the Analyze agent analyses exactly the changed files whose
normalised extension lies in the ten-element `code_extensions` set
(.py .js .ts .java .cpp .c .go .rs .php .rb), that are not binary, and whose
status is added or modified; every other changed file is excluded. -/
theorem filter_code_files_spec :
    ∀ (changed_files : List AFile) (f : AFile),
      f ∈ filter_code_files changed_files ↔
        f ∈ changed_files
          ∧ normalize_extension f.file_extension ∈ code_extensions
          ∧ f.is_binary = false
          ∧ (f.status = "added".data ∨ f.status = "modified".data) := by
  intro changed_files f
  simp [filter_code_files, List.mem_filter]
  tauto

/-- Witness for C6's amended theorem at the concrete `.go` file. -/
theorem filter_code_files_spec_witness :
    go_file ∈ filter_code_files [go_file] ↔
      go_file ∈ [go_file]
        ∧ normalize_extension go_file.file_extension ∈ code_extensions
        ∧ go_file.is_binary = false
        ∧ (go_file.status = "added".data ∨ go_file.status = "modified".data) :=
  filter_code_files_spec [go_file] go_file

/-- C7: the changed lines kept for a file are exactly those within
`[1, file_line_count]`; the file is skipped (no functions) when none remain;
and a parsed function definition with inclusive span `[s, e]` is discovered iff
some valid changed line lies in `[s, e]`. -/
theorem discover_changed_functions_spec :
    ∀ (added_line_numbers : List Nat) (file_line_count : Nat) (funcs : List PyFunc),
      (∀ l, l ∈ valid_changed_lines added_line_numbers file_line_count ↔
          l ∈ added_line_numbers ∧ 1 ≤ l ∧ l ≤ file_line_count)
      ∧ (valid_changed_lines added_line_numbers file_line_count = [] →
          discover_file_functions added_line_numbers file_line_count funcs = [])
      ∧ (∀ f, f ∈ discover_file_functions added_line_numbers file_line_count funcs ↔
          f ∈ funcs ∧ ∃ l ∈ valid_changed_lines added_line_numbers file_line_count,
            f.start_line ≤ l ∧ l ≤ f.end_line) := by
  intro added n funcs
  refine ⟨?_, ?_, ?_⟩
  · intro l
    simp [valid_changed_lines, List.mem_filter]
    omega
  · intro hvalid
    rw [discover_eq_extract, hvalid]
    simp [extract_functions_from_file]
  · intro f
    rw [discover_eq_extract]
    simp [extract_functions_from_file, List.mem_filter, List.any_eq_true]

/-- Witness for C7's theorem at the spec's scenario: `f` on lines 3–7 and `g`
on lines 10–20, changed lines {5, 12} discovering both, and changed line 25 of
a 20-line file skipping the file. -/
theorem discover_changed_functions_spec_witness :
    (valid_changed_lines [25] 20 = []
      ∧ discover_file_functions [25] 20 [uFunc_f, uFunc_g] = [])
    ∧ (uFunc_g ∈ discover_file_functions [5, 12] 20 [uFunc_f, uFunc_g] ↔
        uFunc_g ∈ [uFunc_f, uFunc_g] ∧ ∃ l ∈ valid_changed_lines [5, 12] 20,
          uFunc_g.start_line ≤ l ∧ l ≤ uFunc_g.end_line)
    ∧ discover_file_functions [5, 12] 20 [uFunc_f, uFunc_g] = [uFunc_f, uFunc_g] :=
  ⟨⟨by decide, (discover_changed_functions_spec [25] 20 [uFunc_f, uFunc_g]).2.1 (by decide)⟩,
   (discover_changed_functions_spec [5, 12] 20 [uFunc_f, uFunc_g]).2.2 uFunc_g,
   by decide⟩

/-- C8: whatever the per-file LLM analysis returns, every issue of the merged
Analyze result carries the filename of one of the analysed (filtered) input
files, which is non-empty whenever those files have non-empty names. -/
theorem analyze_issue_filename_spec :
    ∀ (oracle : AFile → FileAnalysis) (changed_files : List AFile) (i : Issue),
      ((filter_code_files changed_files).all (fun f => !(f.filename == []))) = true →
      i ∈ (analyze_pr_diff oracle changed_files).vulnerabilities
          ++ (analyze_pr_diff oracle changed_files).security_issues
          ++ (analyze_pr_diff oracle changed_files).quality_issues →
      i.filename ≠ [] ∧ ∃ f ∈ filter_code_files changed_files, i.filename = f.filename := by
  intro oracle changed_files i hall hmem
  unfold analyze_pr_diff at hmem
  by_cases hc : (filter_code_files changed_files).isEmpty
  · simp [hc] at hmem
  · simp only [hc, if_false, Bool.false_eq_true, if_neg] at hmem
    simp only [List.mem_append] at hmem
    have key : ∃ f ∈ filter_code_files changed_files, ∃ j, i = tag_issue f.filename j := by
      rcases hmem with (h | h) | h
      · rcases (analyze_fold_mem oracle (filter_code_files changed_files) ([], [], [], []) i).1 h with
          habs | hk
        · simp at habs
        · exact hk
      · rcases (analyze_fold_mem oracle (filter_code_files changed_files) ([], [], [], []) i).2.1 h with
          habs | hk
        · simp at habs
        · exact hk
      · rcases (analyze_fold_mem oracle (filter_code_files changed_files) ([], [], [], []) i).2.2 h with
          habs | hk
        · simp at habs
        · exact hk
    rcases key with ⟨f, hf, j, hj⟩
    have hfn : f.filename ≠ [] := by
      have := List.all_eq_true.mp hall f hf
      simpa using this
    refine ⟨?_, f, hf, ?_⟩
    · rw [hj]; simpa [tag_issue] using hfn
    · rw [hj]; simp [tag_issue]

/-- Witness for C8's theorem: one modified Python file and an oracle that
reports an issue with a wrong filename; the merged result re-tags it with the
file's name. -/
theorem analyze_issue_filename_spec_witness :
    ((filter_code_files [py_file]).all (fun f => !(f.filename == []))) = true
    ∧ (tag_issue py_file.filename bogus_issue ∈
        (analyze_pr_diff const_oracle [py_file]).vulnerabilities
        ++ (analyze_pr_diff const_oracle [py_file]).security_issues
        ++ (analyze_pr_diff const_oracle [py_file]).quality_issues)
    ∧ ((tag_issue py_file.filename bogus_issue).filename ≠ []
        ∧ ∃ f ∈ filter_code_files [py_file],
            (tag_issue py_file.filename bogus_issue).filename = f.filename) :=
  ⟨by decide, by decide,
   analyze_issue_filename_spec const_oracle [py_file]
     (tag_issue py_file.filename bogus_issue) (by decide) (by decide)⟩

/-- C9 (code evaluation at the failing input): a fix proposal with
`old_code = new_code = "x\ny"` against the file content `"x \ny "` is not a
no-op: the exact-substring branch does not apply, the fuzzy 80% line match
does, and the two matched lines are rewritten without their trailing blanks —
so the content changes, `update_file` runs (a commit is made) and the fix is
reported applied. -/
theorem fix_identical_old_new_still_commits :
    apply_fix_to_content "x \ny ".data "x\ny".data "x\ny".data = "x\ny".data
    ∧ ("x\ny".data ≠ "x \ny ".data)
    ∧ apply_single_fix_decision "x \ny ".data "x\ny".data "x\ny".data =
        { file_updated := true, reported_applied := true, commit_made := true } := by
  refine ⟨by decide, by decide, by decide⟩

/-- C10: when the non-empty `old_code` occurs as an exact substring of the
content, `_apply_fix_to_content` replaces every occurrence (the result is
`new_code` interleaved between all the pieces of the content split at the
occurrences of `old_code`); when `old_code` does not occur and no window of
consecutive lines reaches the 80% fuzzy threshold, the content is returned
unchanged. -/
theorem apply_fix_spec :
    ∀ (content old_code new_code : Str),
      old_code ≠ [] →
      (occursIn old_code content = true →
        apply_fix_to_content content old_code new_code =
          List.intercalate new_code (splitOnAll old_code content))
      ∧ (occursIn old_code content = false →
        (∀ i, i + (splitLines old_code).length ≤ (splitLines content).length →
          reaches_fuzzy_threshold
            (match_score (splitLines content) (splitLines old_code) i)
            (splitLines old_code).length = false) →
        apply_fix_to_content content old_code new_code = content) := by
  intro content old_code new_code hp
  constructor
  · intro hocc
    unfold apply_fix_to_content
    rw [if_pos hocc]
    unfold pyReplace
    have hne : old_code.isEmpty = false := by
      cases old_code with
      | nil => exact absurd rfl hp
      | cons c rest => rfl
    rw [hne]
    simp only [Bool.false_eq_true, if_false]
    exact pyReplaceGo_eq_intercalate old_code new_code hp content.length content
  · intro hocc hthresh
    unfold apply_fix_to_content
    rw [hocc]
    simp only [Bool.false_eq_true, if_false]
    have hnone : first_fuzzy_index (splitLines content) (splitLines old_code) = none := by
      unfold first_fuzzy_index
      rw [List.find?_eq_none]
      intro i hi
      simp only [List.mem_range] at hi
      have : i + (splitLines old_code).length ≤ (splitLines content).length := by omega
      simp [hthresh i this]
    rw [hnone]

/-- Witness for C10's theorem: both occurrences of `a` in `a,b,a` are replaced
by `XY`, and a proposal with no occurrence and no fuzzy window leaves `ab`
unchanged. -/
theorem apply_fix_spec_witness :
    apply_fix_to_content "a,b,a".data "a".data "XY".data =
        List.intercalate "XY".data (splitOnAll "a".data "a,b,a".data)
    ∧ List.intercalate "XY".data (splitOnAll "a".data "a,b,a".data) = "XY,b,XY".data
    ∧ apply_fix_to_content "ab".data "x\ny\nz".data "w".data = "ab".data :=
  ⟨(apply_fix_spec "a,b,a".data "a".data "XY".data (by decide)).1 (by decide),
   by decide,
   (apply_fix_spec "ab".data "x\ny\nz".data "w".data (by decide)).2 (by decide)
     (fun i hi => by
       have h1 : (splitLines ("x\ny\nz".data)).length = 3 := by decide
       have h2 : (splitLines ("ab".data)).length = 1 := by decide
       rw [h1, h2] at hi
       omega)⟩
